import Mathlib

/-!
Verification of the SeeYou CUP writer (aerofiles/seeyou/writer.py).

The Python module is embedded shallowly: Python strings become `String`,
the numeric latitude/longitude inputs become `ℚ`, duck-typed Python values
(as passed for elevations, runway lengths, styles and task options) become
the inductive `PyVal`, and the mutable `Writer` object becomes the explicit
state record `WriterState` threaded through the operations.  An operation
that can raise returns the (possibly partially mutated) state together with
an `Option WError`, mirroring the fact that a Python exception aborts the
method but keeps every mutation already performed.
-/

/-- Decimal digit character, `chr(48 + d)` for `d < 10`. -/
def digitChar (d : ℕ) : Char := Char.ofNat (48 + d % 10)

/-- Fuel-driven conversion of a natural number to its decimal digits
(most significant first); empty for 0. -/
def decAux : ℕ → ℕ → List Char
  | 0, _ => []
  | fuel + 1, n => if n = 0 then [] else decAux fuel (n / 10) ++ [digitChar (n % 10)]

/-- Decimal representation of a natural number, as produced by
Python `%d` formatting for non-negative values. -/
def natRepr (n : ℕ) : String :=
  if n = 0 then "0" else String.mk (decAux n n)

/-- Decimal representation of an integer (`%d` in Python). -/
def intRepr (n : ℤ) : String :=
  if n < 0 then "-" ++ natRepr n.natAbs else natRepr n.natAbs

/-- Zero padding on the left up to `width` characters, as in `%0Nd`. -/
def zpad (width : ℕ) (s : String) : String :=
  String.mk (List.replicate (width - s.length) '0') ++ s

/-- `%0Nd` for a natural number. -/
def fmtNat (width n : ℕ) : String := zpad width (natRepr n)

/-- Rounding to the nearest integer, halves up; the rounding used to model
the decimal display of C `%f` formatting on the (non-tie) values that occur. -/
def rnd (q : ℚ) : ℤ := ⌊q + 1 / 2⌋

/-- `%06.3f` for a non-negative quantity below 100 (the minutes field):
two zero-padded integer digits, a point, three fractional digits. -/
def fmt63 (m : ℚ) : String :=
  let t : ℕ := (rnd (m * 1000)).toNat
  fmtNat 2 (t / 1000) ++ "." ++ fmtNat 3 (t % 1000)

/-- `%.1f`: one fractional decimal digit. -/
def fmtFloat1 (q : ℚ) : String :=
  let t : ℕ := (rnd (|q| * 10)).toNat
  (if q < 0 then "-" else "") ++ natRepr (t / 10) ++ "." ++ natRepr (t % 10)

/-- `HH:MM:SS`, i.e. `%02d:%02d:%02d` and `time.strftime` with that pattern. -/
def fmtHMS (h m s : ℕ) : String :=
  fmtNat 2 h ++ ":" ++ fmtNat 2 m ++ ":" ++ fmtNat 2 s

/-- The dynamically typed Python values the writer inspects with
`isinstance`: strings, integers, floats (modelled exactly as rationals),
booleans, `datetime.time` / `datetime.datetime` / `datetime.timedelta`
values, `(magnitude, unit)` tuples, and `None`. -/
inductive PyVal where
  | none
  | str (s : String)
  | int (n : ℤ)
  | float (q : ℚ)
  | bool (b : Bool)
  | time (h m s : ℕ)
  | datetime (year month day h m s : ℕ)
  | timedelta (totalSeconds : ℕ)
  | tup (mag : PyVal) (unit : String)
deriving DecidableEq

/-- Python `str()` of a value, used for `%s` interpolation.  The cases the
library documents (booleans, strings, integers, times) are bit-faithful;
floats are shown via their exact rational value since binary float `repr`
is outside this model, and the remaining cases only arise on caller type
errors. -/
def pyStr : PyVal → String
  | .none => "None"
  | .str s => s
  | .int n => intRepr n
  | .float q => if q.den = 1 then intRepr q.num ++ ".0" else toString q
  | .bool b => if b then "True" else "False"
  | .time h m s => fmtHMS h m s
  | .datetime y mo d h m s =>
      fmtNat 4 y ++ "-" ++ fmtNat 2 mo ++ "-" ++ fmtNat 2 d ++ " " ++ fmtHMS h m s
  | .timedelta secs =>
      natRepr (secs / 3600) ++ ":" ++ fmtNat 2 (secs % 3600 / 60) ++ ":" ++ fmtNat 2 (secs % 60)
  | .tup m u => "(" ++ pyStr m ++ ", " ++ u ++ ")"

/-- Python `%d` interpolation of a value: integers and booleans as in
Python; floats truncate toward zero; other values only arise on caller
type errors and are shown via `pyStr`. -/
def pyIntStr : PyVal → String
  | .int n => intRepr n
  | .bool b => if b then "1" else "0"
  | .float q => intRepr (if 0 ≤ q then ⌊q⌋ else ⌈q⌉)
  | v => pyStr v

/-- The exceptions raised by writer.py. -/
inductive WError where
  | valueError (msg : String)
  | runtimeError (msg : String)
deriving DecidableEq

/-- Single-character `str.replace`: every occurrence of `pat` becomes the
character list `rep`. -/
def replace1 (pat : Char) (rep : List Char) : List Char → List Char
  | [] => []
  | c :: cs => (if c = pat then rep else [c]) ++ replace1 pat rep cs

/-- `Writer.escape`: empty input gives the empty string, otherwise the text
is wrapped in double quotes after replacing each backslash by two
backslashes and then each double quote by backslash-quote. -/
def escape (field : String) : String :=
  if field = "" then ""
  else
    "\"" ++ String.mk (replace1 '"' ['\\', '"'] (replace1 '\\' ['\\', '\\'] field.data)) ++ "\""

/-- `Writer.format_coordinate`: range check, hemisphere letter from the
sign, then `%02d%06.3f%s` (latitude) or `%03d%06.3f%s` (longitude) applied
to the whole degrees of the absolute value and the fractional part times
60. -/
def format_coordinate (value : ℚ) (is_latitude : Bool := true) : Except WError String :=
  if is_latitude then
    if ¬(-90 ≤ value ∧ value ≤ 90) then
      .error (.valueError ("Invalid latitude: " ++ toString value))
    else
      let hemisphere := if value < 0 then "S" else "N"
      let v := |value|
      let degrees : ℕ := (⌊v⌋).toNat
      let minutes : ℚ := (v - (degrees : ℚ)) * 60
      .ok (fmtNat 2 degrees ++ fmt63 minutes ++ hemisphere)
  else
    if ¬(-180 ≤ value ∧ value ≤ 180) then
      .error (.valueError ("Invalid longitude: " ++ toString value))
    else
      let hemisphere := if value < 0 then "W" else "E"
      let v := |value|
      let degrees : ℕ := (⌊v⌋).toNat
      let minutes : ℚ := (v - (degrees : ℚ)) * 60
      .ok (fmtNat 3 degrees ++ fmt63 minutes ++ hemisphere)

/-- `Writer.format_latitude`. -/
def format_latitude (value : ℚ) : Except WError String := format_coordinate value true

/-- `Writer.format_longitude`. -/
def format_longitude (value : ℚ) : Except WError String := format_coordinate value false

/-- The `distance is None or distance == ''` test (only `None` and the
empty string compare equal to `''` in Python). -/
def distEmpty : PyVal → Bool
  | .none => true
  | .str s => s = ""
  | _ => false

/-- Magnitude formatting of `Writer.format_distance` after the optional
tuple has been unpacked: floats via `%.1f`, integers (including booleans,
which are `int` instances in Python) via `%d`, everything else via `%s`. -/
def distMag : PyVal → String
  | .float q => fmtFloat1 q
  | .int n => intRepr n
  | .bool b => if b then "1" else "0"
  | v => pyStr v

/-- `Writer.format_distance`: empty for `None`/`''`; a `(magnitude, unit)`
tuple supplies the unit, otherwise the unit is `m`; the magnitude is
rendered according to its runtime type. -/
def format_distance (distance : PyVal) : String :=
  if distEmpty distance then ""
  else
    match distance with
    | .tup mag unit => distMag mag ++ unit
    | d => distMag d ++ "m"

/-- `Writer.format_time`: a datetime is reduced to its time of day, a time
is rendered `HH:MM:SS`, anything else (in practice a preformatted string)
passes through. -/
def format_time : PyVal → String
  | .datetime _ _ _ h m s => fmtHMS h m s
  | .time h m s => fmtHMS h m s
  | .str s => s
  | v => pyStr v

/-- `Writer.format_timedelta`: a timedelta is decomposed with
`divmod(total_seconds, 3600)` and `divmod(remainder, 60)` and rendered
`%02d:%02d:%02d`; anything else passes through. -/
def format_timedelta : PyVal → String
  | .timedelta secs => fmtHMS (secs / 3600) (secs % 3600 / 60) (secs % 60)
  | .str s => s
  | v => pyStr v

/-- The fixed header line. -/
def HEADER : String := "name,code,country,lat,lon,elev,style,rwdir,rwlen,freq,desc"

/-- The task-section divider line. -/
def DIVIDER : String := "-----Related Tasks-----"

/-- The mutable state of a `Writer`: everything written to `fp` so far,
the set `wps` of declared waypoint names (a duplicate-free list), and the
`in_task_section` flag. -/
structure WriterState where
  out : String
  wps : List String
  in_task_section : Bool
deriving DecidableEq

/-- `Writer.write_line`: append the line plus CRLF to the sink. -/
def write_line (st : WriterState) (line : String := "") : WriterState :=
  { st with out := st.out ++ (line ++ "\r\n") }

/-- `Writer.write_fields`: comma-join the fields into one line. -/
def write_fields (st : WriterState) (fields : List String) : WriterState :=
  write_line st (String.intercalate "," fields)

/-- `Writer.__init__`: fresh state, then the header line is written
immediately. -/
def writerInit : WriterState :=
  write_line { out := "", wps := [], in_task_section := false } HEADER

/-- Modelled from the spec: `WaypointStyles.NORMAL` lives in
`aerofiles/seeyou/converter.py`, which is not among the sources here; the
spec fixes the default style to the opaque code `"Normal"/1`. -/
def WaypointStylesNORMAL : PyVal := .int 1

/-- `Writer.write_waypoint`: refuses to run in the task section, requires a
non-empty name, formats the 11 fields (latitude or longitude formatting
may fail with a range error before anything is written), writes the
comma-joined line, and finally adds the name to `wps`. -/
def write_waypoint (st : WriterState) (name shortname country : String)
    (latitude longitude : ℚ) (elevation : PyVal := .str "")
    (style : PyVal := WaypointStylesNORMAL) (runway_direction : PyVal := .str "")
    (runway_length : PyVal := .str "") (frequency : String := "")
    (description : String := "") : WriterState × Option WError :=
  if st.in_task_section then
    (st, some (.runtimeError "Waypoints must be written before any tasks"))
  else if name = "" then
    (st, some (.valueError "Waypoint name must not be empty"))
  else
    match format_latitude latitude with
    | .error e => (st, some e)
    | .ok lat =>
      match format_longitude longitude with
      | .error e => (st, some e)
      | .ok lon =>
        let fields := [escape name, escape shortname, country, lat, lon,
          format_distance elevation, pyStr style, pyStr runway_direction,
          format_distance runway_length, escape frequency, escape description]
        ({ write_fields st fields with wps := st.wps.insert name }, Option.none)

/-- First name of the list that is not a declared waypoint, if any; the
Python loop raises at exactly this name. -/
def firstMissing (wps : List String) : List String → Option String
  | [] => Option.none
  | w :: rest => if w ∈ wps then firstMissing wps rest else some w

/-- `Writer.write_task`: on the first call the blank line and the divider
are written and the flag is set (this happens before any validation); then
the waypoint names are checked against `wps`, raising at the first
undeclared one, and on success the escaped description and escaped names
are written as one line. -/
def write_task (st : WriterState) (description : String)
    (waypoints : List String) : WriterState × Option WError :=
  let st :=
    if ¬st.in_task_section then
      { write_line (write_line st) DIVIDER with in_task_section := true }
    else st
  match firstMissing st.wps waypoints with
  | some w => (st, some (.valueError ("Waypoint \"" ++ w ++ "\" was not found")))
  | Option.none =>
      (write_fields st (escape description :: waypoints.map escape), Option.none)

/-- Keyword-argument lookup: Python `kw[k]` on the keyword dictionary
(`k in kw` is `(kwLookup kw k).isSome`). -/
def kwLookup (kw : List (String × PyVal)) (k : String) : Option PyVal :=
  (kw.find? fun p => decide (p.1 = k)).map Prod.snd

/-- One conditional `fields.append` block of `write_task_options`: the
rendered field if the key was supplied, nothing otherwise. -/
def optField (kw : List (String × PyVal)) (k : String) (f : PyVal → String) :
    List String :=
  match kwLookup kw k with
  | some v => [f v]
  | Option.none => []

/-- `Writer.write_task_options`: refuses to run outside the task section,
then builds the `Options` line from the recognized keyword arguments in
the fixed source order and writes it. -/
def write_task_options (st : WriterState) (kw : List (String × PyVal)) :
    WriterState × Option WError :=
  if ¬st.in_task_section then
    (st, some (.runtimeError "Task options have to be written in task section"))
  else
    let fields := ["Options"]
    let fields := fields ++ optField kw "start_time" (fun v => "NoStart=" ++ format_time v)
    let fields := fields ++ optField kw "task_time" (fun v => "TaskTime=" ++ format_timedelta v)
    let fields := fields ++ optField kw "waypoint_distance" (fun v => "WpDis=" ++ pyStr v)
    let fields := fields ++ optField kw "distance_tolerance" (fun v => "NearDis=" ++ format_distance v)
    let fields := fields ++ optField kw "altitude_tolerance" (fun v => "NearAlt=" ++ format_distance v)
    let fields := fields ++ optField kw "min_distance" (fun v => "MinDis=" ++ pyStr v)
    let fields := fields ++ optField kw "random_order" (fun v => "RandomOrder=" ++ pyStr v)
    let fields := fields ++ optField kw "max_points" (fun v => "MaxPts=" ++ pyIntStr v)
    let fields := fields ++ optField kw "before_points" (fun v => "BeforePts=" ++ pyIntStr v)
    let fields := fields ++ optField kw "after_points" (fun v => "AfterPts=" ++ pyIntStr v)
    let fields := fields ++ optField kw "bonus" (fun v => "Bonus=" ++ pyIntStr v)
    (write_fields st fields, Option.none)

/-- The three public mutating operations, for statements quantifying over
arbitrary call sequences. -/
inductive Op where
  | waypoint (name shortname country : String) (latitude longitude : ℚ)
      (elevation style runway_direction runway_length : PyVal)
      (frequency description : String)
  | task (description : String) (waypoints : List String)
  | options (kw : List (String × PyVal))

/-- One call on the writer; the state is kept even when the call raised. -/
def step (st : WriterState) : Op → WriterState × Option WError
  | .waypoint n sn c la lo e sty rd rl f d =>
      write_waypoint st n sn c la lo e sty rd rl f d
  | .task d w => write_task st d w
  | .options kw => write_task_options st kw

/-- A sequence of calls on the writer, keeping the state of failed calls. -/
def run (st : WriterState) (ops : List Op) : WriterState :=
  ops.foldl (fun s op => (step s op).1) st

def latPattern (s : String) : Bool :=
  match s.data with
  | [d1, d2, m1, m2, p, f1, f2, f3, hemi] =>
      d1.isDigit && d2.isDigit && m1.isDigit && m2.isDigit && (p == '.') &&
      f1.isDigit && f2.isDigit && f3.isDigit && ((hemi == 'N') || (hemi == 'S'))
  | _ => false

def lonPattern (s : String) : Bool :=
  match s.data with
  | [d1, d2, d3, m1, m2, p, f1, f2, f3, hemi] =>
      d1.isDigit && d2.isDigit && d3.isDigit && m1.isDigit && m2.isDigit && (p == '.') &&
      f1.isDigit && f2.isDigit && f3.isDigit && ((hemi == 'E') || (hemi == 'W'))
  | _ => false

set_option maxRecDepth 10000 in
lemma fmtNat2_shape : ∀ n < 100,
    (fmtNat 2 n).data.length = 2 ∧ (fmtNat 2 n).data.all Char.isDigit = true := by decide

set_option maxRecDepth 100000 in
lemma fmtNat3_shape : ∀ n < 1000,
    (fmtNat 3 n).data.length = 3 ∧ (fmtNat 3 n).data.all Char.isDigit = true := by decide

lemma fmtNat2_cons (n : ℕ) (h : n < 100) :
    ∃ a b, (fmtNat 2 n).data = [a, b] ∧ a.isDigit = true ∧ b.isDigit = true := by
  obtain ⟨h1, h2⟩ := fmtNat2_shape n h
  obtain ⟨a, b, hab⟩ := List.length_eq_two.mp h1
  rw [hab] at h2
  simp only [List.all_cons, List.all_nil, Bool.and_true, Bool.and_eq_true] at h2
  exact ⟨a, b, hab, h2.1, h2.2⟩

lemma fmtNat3_cons (n : ℕ) (h : n < 1000) :
    ∃ a b c, (fmtNat 3 n).data = [a, b, c] ∧
      a.isDigit = true ∧ b.isDigit = true ∧ c.isDigit = true := by
  obtain ⟨h1, h2⟩ := fmtNat3_shape n h
  obtain ⟨a, b, c, habc⟩ := List.length_eq_three.mp h1
  rw [habc] at h2
  simp only [List.all_cons, List.all_nil, Bool.and_true, Bool.and_eq_true] at h2
  exact ⟨a, b, c, habc, h2.1, h2.2.1, h2.2.2⟩

lemma fmt63_cons (m : ℚ) (h0 : 0 ≤ m) (h1 : m < 60) :
    ∃ a b c d e, (fmt63 m).data = [a, b, '.', c, d, e] ∧
      a.isDigit = true ∧ b.isDigit = true ∧ c.isDigit = true ∧
      d.isDigit = true ∧ e.isDigit = true := by
  have hnn : 0 ≤ rnd (m * 1000) := by
    simp only [rnd]
    exact Int.floor_nonneg.mpr (by linarith)
  have hlt : rnd (m * 1000) < 60001 := by
    simp only [rnd]
    apply Int.floor_lt.mpr
    push_cast
    linarith
  have htle : (rnd (m * 1000)).toNat < 60001 := by omega
  obtain ⟨a, b, hab, ha, hb⟩ := fmtNat2_cons ((rnd (m * 1000)).toNat / 1000) (by omega)
  obtain ⟨c, d, e, hcde, hc, hd, he⟩ := fmtNat3_cons ((rnd (m * 1000)).toNat % 1000) (by omega)
  refine ⟨a, b, c, d, e, ?_, ha, hb, hc, hd, he⟩
  have hfm : fmt63 m = fmtNat 2 ((rnd (m * 1000)).toNat / 1000) ++ "." ++
      fmtNat 3 ((rnd (m * 1000)).toNat % 1000) := rfl
  rw [hfm, String.data_append, String.data_append, hab, hcde]
  rfl

lemma latPattern_build (a b c d e f g : Char) (hemi : Char)
    (ha : a.isDigit = true) (hb : b.isDigit = true) (hc : c.isDigit = true)
    (hd : d.isDigit = true) (he : e.isDigit = true) (hf : f.isDigit = true)
    (hg : g.isDigit = true) (hh : hemi = 'N' ∨ hemi = 'S') :
    latPattern (String.mk [a, b, c, d, '.', e, f, g, hemi]) = true := by
  rcases hh with h | h <;> subst h <;>
    simp [latPattern, ha, hb, hc, hd, he, hf, hg]

lemma lonPattern_build (a b c d e f g k : Char) (hemi : Char)
    (ha : a.isDigit = true) (hb : b.isDigit = true) (hc : c.isDigit = true)
    (hd : d.isDigit = true) (he : e.isDigit = true) (hf : f.isDigit = true)
    (hg : g.isDigit = true) (hk : k.isDigit = true) (hh : hemi = 'E' ∨ hemi = 'W') :
    lonPattern (String.mk [a, b, c, d, e, '.', f, g, k, hemi]) = true := by
  rcases hh with h | h <;> subst h <;>
    simp [lonPattern, ha, hb, hc, hd, he, hf, hg, hk]

lemma format_latitude_ok (v : ℚ) (h1 : -90 ≤ v) (h2 : v ≤ 90) :
    format_coordinate v true =
      .ok (fmtNat 2 ((⌊|v|⌋).toNat) ++ fmt63 ((|v| - ((⌊|v|⌋).toNat : ℚ)) * 60) ++
        (if v < 0 then "S" else "N")) := by
  simp [format_coordinate, h1, h2]

lemma format_longitude_ok (v : ℚ) (h1 : -180 ≤ v) (h2 : v ≤ 180) :
    format_coordinate v false =
      .ok (fmtNat 3 ((⌊|v|⌋).toNat) ++ fmt63 ((|v| - ((⌊|v|⌋).toNat : ℚ)) * 60) ++
        (if v < 0 then "W" else "E")) := by
  simp [format_coordinate, h1, h2]

lemma coord_degrees_lt (v : ℚ) (bound : ℕ) (h : |v| ≤ (bound : ℚ)) :
    (⌊|v|⌋).toNat ≤ bound := by
  have h1 : ⌊|v|⌋ ≤ (bound : ℤ) := by
    have := Int.floor_mono h
    simpa using this
  omega

lemma coord_minutes_bounds (v : ℚ) :
    0 ≤ (|v| - ((⌊|v|⌋).toNat : ℚ)) * 60 ∧ (|v| - ((⌊|v|⌋).toNat : ℚ)) * 60 < 60 := by
  have hcast : ((⌊|v|⌋).toNat : ℚ) = (⌊|v|⌋ : ℚ) := by
    exact_mod_cast Int.toNat_of_nonneg (Int.floor_nonneg.mpr (abs_nonneg v))
  have hle : (⌊|v|⌋ : ℚ) ≤ |v| := Int.floor_le _
  have hlt : |v| < ⌊|v|⌋ + 1 := Int.lt_floor_add_one _
  rw [hcast]
  constructor <;> nlinarith

lemma lat_ok_part (v : ℚ) (h1 : -90 ≤ v) (h2 : v ≤ 90) :
    ∃ s, format_coordinate v true = .ok s ∧
      s = fmtNat 2 ((⌊|v|⌋).toNat) ++ fmt63 ((|v| - ((⌊|v|⌋).toNat : ℚ)) * 60) ++
        (if v < 0 then "S" else "N") ∧
      latPattern s = true ∧ s.data.getLast? = some (if v < 0 then 'S' else 'N') := by
  have habs : |v| ≤ ((90 : ℕ) : ℚ) := by
    push_cast
    exact abs_le.mpr ⟨h1, h2⟩
  have hdeg : (⌊|v|⌋).toNat ≤ 90 := coord_degrees_lt v 90 habs
  obtain ⟨hm0, hm1⟩ := coord_minutes_bounds v
  obtain ⟨a, b, hab, ha, hb⟩ := fmtNat2_cons ((⌊|v|⌋).toNat) (by omega)
  obtain ⟨c, d, e, f, g, hmins, hc, hd, he, hf, hg⟩ :=
    fmt63_cons ((|v| - ((⌊|v|⌋).toNat : ℚ)) * 60) hm0 hm1
  refine ⟨_, format_latitude_ok v h1 h2, rfl, ?_, ?_⟩ <;> by_cases hneg : v < 0 <;>
    simp only [hneg, if_true, if_false]
  · have hsdata : (fmtNat 2 ((⌊|v|⌋).toNat) ++ fmt63 ((|v| - ((⌊|v|⌋).toNat : ℚ)) * 60) ++
        ("S" : String)).data = [a, b, c, d, '.', e, f, g, 'S'] := by
      rw [String.data_append, String.data_append, hab, hmins]
      rfl
    have hs : (fmtNat 2 ((⌊|v|⌋).toNat) ++ fmt63 ((|v| - ((⌊|v|⌋).toNat : ℚ)) * 60) ++
        ("S" : String)) = String.mk [a, b, c, d, '.', e, f, g, 'S'] := congrArg String.mk hsdata
    rw [hs]
    exact latPattern_build a b c d e f g 'S' ha hb hc hd he hf hg (Or.inr rfl)
  · have hsdata : (fmtNat 2 ((⌊|v|⌋).toNat) ++ fmt63 ((|v| - ((⌊|v|⌋).toNat : ℚ)) * 60) ++
        ("N" : String)).data = [a, b, c, d, '.', e, f, g, 'N'] := by
      rw [String.data_append, String.data_append, hab, hmins]
      rfl
    have hs : (fmtNat 2 ((⌊|v|⌋).toNat) ++ fmt63 ((|v| - ((⌊|v|⌋).toNat : ℚ)) * 60) ++
        ("N" : String)) = String.mk [a, b, c, d, '.', e, f, g, 'N'] := congrArg String.mk hsdata
    rw [hs]
    exact latPattern_build a b c d e f g 'N' ha hb hc hd he hf hg (Or.inl rfl)
  · rw [String.data_append, String.data_append, hab, hmins]
    rfl
  · rw [String.data_append, String.data_append, hab, hmins]
    rfl

lemma lon_ok_part (v : ℚ) (h1 : -180 ≤ v) (h2 : v ≤ 180) :
    ∃ s, format_coordinate v false = .ok s ∧
      s = fmtNat 3 ((⌊|v|⌋).toNat) ++ fmt63 ((|v| - ((⌊|v|⌋).toNat : ℚ)) * 60) ++
        (if v < 0 then "W" else "E") ∧
      lonPattern s = true ∧ s.data.getLast? = some (if v < 0 then 'W' else 'E') := by
  have habs : |v| ≤ ((180 : ℕ) : ℚ) := by
    push_cast
    exact abs_le.mpr ⟨h1, h2⟩
  have hdeg : (⌊|v|⌋).toNat ≤ 180 := coord_degrees_lt v 180 habs
  obtain ⟨hm0, hm1⟩ := coord_minutes_bounds v
  obtain ⟨a, b, c, habc, ha, hb, hc⟩ := fmtNat3_cons ((⌊|v|⌋).toNat) (by omega)
  obtain ⟨d, e, f, g, k, hmins, hd, he, hf, hg, hk⟩ :=
    fmt63_cons ((|v| - ((⌊|v|⌋).toNat : ℚ)) * 60) hm0 hm1
  refine ⟨_, format_longitude_ok v h1 h2, rfl, ?_, ?_⟩ <;> by_cases hneg : v < 0 <;>
    simp only [hneg, if_true, if_false]
  · have hsdata : (fmtNat 3 ((⌊|v|⌋).toNat) ++ fmt63 ((|v| - ((⌊|v|⌋).toNat : ℚ)) * 60) ++
        ("W" : String)).data = [a, b, c, d, e, '.', f, g, k, 'W'] := by
      rw [String.data_append, String.data_append, habc, hmins]
      rfl
    have hs : (fmtNat 3 ((⌊|v|⌋).toNat) ++ fmt63 ((|v| - ((⌊|v|⌋).toNat : ℚ)) * 60) ++
        ("W" : String)) = String.mk [a, b, c, d, e, '.', f, g, k, 'W'] := congrArg String.mk hsdata
    rw [hs]
    exact lonPattern_build a b c d e f g k 'W' ha hb hc hd he hf hg hk (Or.inr rfl)
  · have hsdata : (fmtNat 3 ((⌊|v|⌋).toNat) ++ fmt63 ((|v| - ((⌊|v|⌋).toNat : ℚ)) * 60) ++
        ("E" : String)).data = [a, b, c, d, e, '.', f, g, k, 'E'] := by
      rw [String.data_append, String.data_append, habc, hmins]
      rfl
    have hs : (fmtNat 3 ((⌊|v|⌋).toNat) ++ fmt63 ((|v| - ((⌊|v|⌋).toNat : ℚ)) * 60) ++
        ("E" : String)) = String.mk [a, b, c, d, e, '.', f, g, k, 'E'] := congrArg String.mk hsdata
    rw [hs]
    exact lonPattern_build a b c d e f g k 'E' ha hb hc hd he hf hg hk (Or.inl rfl)
  · rw [String.data_append, String.data_append, habc, hmins]
    rfl
  · rw [String.data_append, String.data_append, habc, hmins]
    rfl

/-- C2: format_coordinate fails with a range error exactly when its input
is out of range (latitude outside [-90, 90], longitude outside
[-180, 180]); every in-range latitude v formats as the 2-digit whole
degrees of the absolute value, then the fractional part times 60 as
decimal minutes with 3 decimal places in a 6-character zero-padded field,
then S for negative v and N otherwise (so the output matches the pattern
of 4 digits, a point, 3 digits and an N/S letter, and v = 0 yields N);
in-range longitudes behave the same with 3-digit degrees and W/E. -/
theorem format_coordinate_spec (v : ℚ) :
    ((format_coordinate v true).isOk = true ↔ -90 ≤ v ∧ v ≤ 90)
    ∧ ((format_coordinate v false).isOk = true ↔ -180 ≤ v ∧ v ≤ 180)
    ∧ (-90 ≤ v → v ≤ 90 → ∃ s,
        format_coordinate v true = .ok s
        ∧ s = fmtNat 2 ((⌊|v|⌋).toNat) ++ fmt63 ((|v| - ((⌊|v|⌋).toNat : ℚ)) * 60) ++
            (if v < 0 then "S" else "N")
        ∧ latPattern s = true
        ∧ s.data.getLast? = some (if v < 0 then 'S' else 'N'))
    ∧ (-180 ≤ v → v ≤ 180 → ∃ s,
        format_coordinate v false = .ok s
        ∧ s = fmtNat 3 ((⌊|v|⌋).toNat) ++ fmt63 ((|v| - ((⌊|v|⌋).toNat : ℚ)) * 60) ++
            (if v < 0 then "W" else "E")
        ∧ lonPattern s = true
        ∧ s.data.getLast? = some (if v < 0 then 'W' else 'E')) := by
  refine ⟨?_, ?_, fun h1 h2 => lat_ok_part v h1 h2, fun h1 h2 => lon_ok_part v h1 h2⟩
  · by_cases hr : -90 ≤ v ∧ v ≤ 90
    · obtain ⟨s, hs, -⟩ := lat_ok_part v hr.1 hr.2
      rw [hs]
      exact iff_of_true rfl hr
    · have herr : format_coordinate v true =
          .error (.valueError ("Invalid latitude: " ++ toString v)) := by
        simp [format_coordinate, hr]
      rw [herr]
      exact iff_of_false Bool.false_ne_true hr
  · by_cases hr : -180 ≤ v ∧ v ≤ 180
    · obtain ⟨s, hs, -⟩ := lon_ok_part v hr.1 hr.2
      rw [hs]
      exact iff_of_true rfl hr
    · have herr : format_coordinate v false =
          .error (.valueError ("Invalid longitude: " ++ toString v)) := by
        simp [format_coordinate, hr]
      rw [herr]
      exact iff_of_false Bool.false_ne_true hr

/-- Witness for C2: the theorem applied at the out-of-range latitude 91
and at the in-range latitude -45.5. -/
theorem format_coordinate_spec_witness :
    (format_coordinate 91 true).isOk = false ∧
    (format_coordinate (-45.5) true).isOk = true := by
  constructor
  · have h := (format_coordinate_spec 91).1
    simp only [show ¬(-90 ≤ (91 : ℚ) ∧ (91 : ℚ) ≤ 90) from by norm_num, iff_false] at h
    simpa using h
  · obtain ⟨s, hs, -⟩ := (format_coordinate_spec (-45.5)).2.2.1 (by norm_num) (by norm_num)
    rw [hs]
    rfl

/-- The per-character escaping map the spec describes: a backslash becomes
two backslashes, a double quote becomes backslash-quote, anything else is
kept. -/
def escMap (c : Char) : List Char :=
  if c = '\\' then ['\\', '\\'] else if c = '"' then ['\\', '"'] else [c]

/-- One simultaneous pass of `escMap` over a character list. -/
def escAll : List Char → List Char
  | [] => []
  | c :: cs => escMap c ++ escAll cs

lemma replace1_append (p : Char) (r l1 l2 : List Char) :
    replace1 p r (l1 ++ l2) = replace1 p r l1 ++ replace1 p r l2 := by
  induction l1 with
  | nil => rfl
  | cons c cs ih => simp [replace1, ih]

lemma replace_replace_eq_escAll (l : List Char) :
    replace1 '"' ['\\', '"'] (replace1 '\\' ['\\', '\\'] l) = escAll l := by
  induction l with
  | nil => rfl
  | cons c cs ih =>
      by_cases h1 : c = '\\'
      · subst h1
        simp [replace1, replace1_append, escMap, escAll, ih]
      · by_cases h2 : c = '"'
        · subst h2
          simp [replace1, replace1_append, escMap, escAll, ih]
        · simp [replace1, replace1_append, escMap, escAll, ih, h1, h2]

/-- C5: escape returns the empty string for empty input (not a pair of
quotes); every non-empty string is wrapped in double quotes with each
embedded backslash doubled and each embedded double quote preceded by a
backslash (the two sequential replacements amount to the simultaneous
per-character map, i.e. backslashes are escaped before quotes), and the
input a"b\c yields the nine characters quote, a, backslash, quote, b,
backslash, backslash, c, quote. -/
theorem escape_spec :
    escape "" = "" ∧
    (∀ s : String, s ≠ "" → (escape s).data = '"' :: (escAll s.data ++ ['"'])) ∧
    escape "a\"b\\c" = "\"a\\\"b\\\\c\"" ∧
    (escape "a\"b\\c").data =
      ['"', 'a', '\\', '"', 'b', '\\', '\\', 'c', '"'] := by
  refine ⟨rfl, ?_, by decide, by decide⟩
  intro s hs
  simp only [escape, hs, if_false, String.data_append, replace_replace_eq_escAll]
  rfl

/-- Witness for C5: the general escaping law applied to the one-character
string x. -/
theorem escape_spec_witness :
    (escape "x").data = '"' :: (escAll "x".data ++ ['"']) :=
  escape_spec.2.1 "x" (by decide)

lemma digitChar_isDigit (d : ℕ) : (digitChar d).isDigit = true := by
  simp only [digitChar]
  have h : d % 10 < 10 := Nat.mod_lt _ (by norm_num)
  revert h
  generalize d % 10 = k
  intro h
  interval_cases k <;> rfl

lemma decAux_digits (fuel : ℕ) : ∀ n, (decAux fuel n).all Char.isDigit = true := by
  induction fuel with
  | zero => intro n; rfl
  | succ f ih =>
      intro n
      by_cases h : n = 0
      · simp [decAux, h]
      · simp [decAux, h, ih, digitChar_isDigit]

lemma natRepr_digits (n : ℕ) : (natRepr n).data.all Char.isDigit = true := by
  by_cases h : n = 0
  · subst h; rfl
  · simp only [natRepr, h, if_false]
    exact decAux_digits n n

lemma dot_not_mem_intRepr (n : ℤ) : ¬ '.' ∈ (intRepr n).data := by
  intro hmem
  by_cases h : n < 0
  · simp only [intRepr, h, if_true, String.data_append] at hmem
    rcases List.mem_append.mp hmem with h1 | h2
    · simp at h1
    · have := List.all_eq_true.mp (natRepr_digits n.natAbs) _ h2
      exact absurd this (by decide)
  · simp only [intRepr, h, if_false] at hmem
    have := List.all_eq_true.mp (natRepr_digits n.natAbs) _ hmem
    exact absurd this (by decide)

lemma natRepr_one_digit : ∀ k < 10,
    (natRepr k).data.length = 1 ∧ (natRepr k).data.all Char.isDigit = true := by decide

lemma rnd_eq (q : ℚ) (z : ℤ) (h1 : (z : ℚ) ≤ q + 1 / 2) (h2 : q + 1 / 2 < z + 1) :
    rnd q = z := by
  simp only [rnd]
  exact Int.floor_eq_iff.mpr ⟨h1, h2⟩

lemma fmtFloat1_seven_tenths : fmtFloat1 (7 / 10) = "0.7" := by
  have habs : |(7 / 10 : ℚ)| = 7 / 10 := abs_of_nonneg (by norm_num)
  have h : rnd (|(7 / 10 : ℚ)| * 10) = 7 := by
    rw [habs]
    exact rnd_eq _ 7 (by norm_num) (by norm_num)
  simp only [fmtFloat1, h]
  norm_num
  all_goals decide

lemma fmtFloat1_threehundred : fmtFloat1 300 = "300.0" := by
  have habs : |(300 : ℚ)| = 300 := abs_of_nonneg (by norm_num)
  have h : rnd (|(300 : ℚ)| * 10) = 3000 := by
    rw [habs]
    exact rnd_eq _ 3000 (by norm_num) (by norm_num)
  simp only [fmtFloat1, h]
  norm_num
  all_goals decide

/-- C6: format_distance returns the empty string for None and for the
empty string; a bare magnitude gets the implicit unit m while a
(magnitude, unit) tuple supplies its unit; a float magnitude renders with
exactly one decimal digit after the point followed by the unit, an int
magnitude renders with no decimal point followed by the unit, and a
string magnitude renders verbatim followed by the unit; in particular
(0.7, km) gives 0.7km, the float 300.0 gives 300.0m and the int 300
gives 300m. -/
theorem format_distance_spec :
    format_distance .none = "" ∧
    format_distance (.str "") = "" ∧
    (∀ q u, format_distance (.tup (.float q) u) = fmtFloat1 q ++ u) ∧
    (∀ n u, format_distance (.tup (.int n) u) = intRepr n ++ u) ∧
    (∀ q, format_distance (.float q) = fmtFloat1 q ++ "m") ∧
    (∀ n : ℤ, format_distance (.int n) = intRepr n ++ "m") ∧
    (∀ s : String, s ≠ "" → format_distance (.str s) = s ++ "m") ∧
    (∀ q, ∃ pre dgt, fmtFloat1 q = pre ++ "." ++ dgt ∧ dgt.data.length = 1 ∧
        dgt.data.all Char.isDigit = true) ∧
    (∀ n : ℤ, ¬ '.' ∈ (intRepr n).data) ∧
    format_distance (.tup (.float (7 / 10)) "km") = "0.7km" ∧
    format_distance (.float 300) = "300.0m" ∧
    format_distance (.int 300) = "300m" := by
  refine ⟨rfl, rfl, fun q u => rfl, fun n u => rfl, fun q => rfl, fun n => rfl,
    ?_, ?_, dot_not_mem_intRepr,
    by rw [show format_distance (.tup (.float (7 / 10)) "km") =
        fmtFloat1 (7 / 10) ++ "km" from rfl, fmtFloat1_seven_tenths]; decide,
    by rw [show format_distance (.float 300) = fmtFloat1 300 ++ "m" from rfl,
        fmtFloat1_threehundred]; decide,
    by decide⟩
  · intro s hs
    simp [format_distance, distEmpty, distMag, pyStr, hs]
  · intro q
    refine ⟨(if q < 0 then "-" else "") ++ natRepr ((rnd (|q| * 10)).toNat / 10),
      natRepr ((rnd (|q| * 10)).toNat % 10), rfl, ?_, ?_⟩
    · exact (natRepr_one_digit _ (Nat.mod_lt _ (by norm_num))).1
    · exact (natRepr_one_digit _ (Nat.mod_lt _ (by norm_num))).2

/-- Witness for C6: the verbatim rule applied to the preformatted
magnitude 12 with the default unit. -/
theorem format_distance_spec_witness :
    format_distance (.str "12") = "12" ++ "m" :=
  format_distance_spec.2.2.2.2.2.2.1 "12" (by decide)

lemma fmt63_7345 : fmt63 (7.345 : ℚ) = "07.345" := by
  have h : rnd ((7.345 : ℚ) * 1000) = 7345 := rnd_eq _ 7345 (by norm_num) (by norm_num)
  have hfm : fmt63 (7.345 : ℚ) = fmtNat 2 ((rnd ((7.345 : ℚ) * 1000)).toNat / 1000) ++ "." ++
      fmtNat 3 ((rnd ((7.345 : ℚ) * 1000)).toNat % 1000) := rfl
  rw [hfm, h]
  decide

lemma lat_meiersberg : format_latitude (51 + 7.345 / 60) = Except.ok "5107.345N" := by
  rw [format_latitude, format_latitude_ok (51 + 7.345 / 60) (by norm_num) (by norm_num)]
  have habs : |(51 + 7.345 / 60 : ℚ)| = 51 + 7.345 / 60 := abs_of_nonneg (by norm_num)
  have hfl : ⌊(51 + 7.345 / 60 : ℚ)⌋ = 51 := Int.floor_eq_iff.mpr ⟨by norm_num, by norm_num⟩
  rw [habs, hfl]
  have hmin : ((51 + 7.345 / 60 : ℚ) - (((51 : ℤ).toNat : ℕ) : ℚ)) * 60 = 7.345 := by
    rw [show (51 : ℤ).toNat = (51 : ℕ) from rfl]
    norm_num
  rw [hmin, fmt63_7345]
  have hneg : ¬ (51 + 7.345 / 60 : ℚ) < 0 := by norm_num
  rw [if_neg hneg]
  exact congrArg Except.ok (by decide)

lemma fmt63_24765 : fmt63 (24.765 : ℚ) = "24.765" := by
  have h : rnd ((24.765 : ℚ) * 1000) = 24765 := rnd_eq _ 24765 (by norm_num) (by norm_num)
  have hfm : fmt63 (24.765 : ℚ) = fmtNat 2 ((rnd ((24.765 : ℚ) * 1000)).toNat / 1000) ++ "." ++
      fmtNat 3 ((rnd ((24.765 : ℚ) * 1000)).toNat % 1000) := rfl
  rw [hfm, h]
  decide

lemma lon_meiersberg : format_longitude (6 + 24.765 / 60) = Except.ok "00624.765E" := by
  rw [format_longitude, format_longitude_ok (6 + 24.765 / 60) (by norm_num) (by norm_num)]
  have habs : |(6 + 24.765 / 60 : ℚ)| = 6 + 24.765 / 60 := abs_of_nonneg (by norm_num)
  have hfl : ⌊(6 + 24.765 / 60 : ℚ)⌋ = 6 := Int.floor_eq_iff.mpr ⟨by norm_num, by norm_num⟩
  rw [habs, hfl]
  have hmin : ((6 + 24.765 / 60 : ℚ) - (((6 : ℤ).toNat : ℕ) : ℚ)) * 60 = 24.765 := by
    rw [show (6 : ℤ).toNat = (6 : ℕ) from rfl]
    norm_num
  rw [hmin, fmt63_24765]
  have hneg : ¬ (6 + 24.765 / 60 : ℚ) < 0 := by norm_num
  rw [if_neg hneg]
  exact congrArg Except.ok (by decide)

/-- C3: constructing a writer immediately writes the fixed header line
terminated by CRLF, and a following write_waypoint call for Meiersberg /
MEIER / DE at latitude 51 + 7.345/60 and longitude 6 + 24.765/60 with all
remaining parameters defaulted succeeds and leaves the sink holding
exactly the header line and the documented waypoint line. -/
theorem writer_example :
    writerInit.out = "name,code,country,lat,lon,elev,style,rwdir,rwlen,freq,desc\r\n" ∧
    (write_waypoint writerInit "Meiersberg" "MEIER" "DE" (51 + 7.345 / 60)
        (6 + 24.765 / 60)).2 = Option.none ∧
    (write_waypoint writerInit "Meiersberg" "MEIER" "DE" (51 + 7.345 / 60)
        (6 + 24.765 / 60)).1.out =
      "name,code,country,lat,lon,elev,style,rwdir,rwlen,freq,desc\r\n\"Meiersberg\",\"MEIER\",DE,5107.345N,00624.765E,,1,,,,\r\n" := by
  have h1 : format_latitude (51 + 7.345 / 60) = Except.ok "5107.345N" := lat_meiersberg
  have h2 : format_longitude (6 + 24.765 / 60) = Except.ok "00624.765E" := lon_meiersberg
  refine ⟨rfl, ?_, ?_⟩ <;>
    simp only [write_waypoint, h1, h2] <;> decide

/-- C4: with all referenced waypoints declared, the first write_task call
on a writer emits a blank line, then the literal divider line, then the
comma-joined task line, and sets the phase flag; a write_task call in the
task section emits only its own task line, with no blank line and no
divider. -/
theorem first_task_divider (st : WriterState) (description : String)
    (wpNames : List String) (h : firstMissing st.wps wpNames = Option.none) :
    (st.in_task_section = false →
      write_task st description wpNames =
        ({ out := st.out ++ "\r\n" ++ DIVIDER ++ "\r\n" ++
            String.intercalate "," (escape description :: wpNames.map escape) ++ "\r\n",
           wps := st.wps, in_task_section := true }, Option.none)) ∧
    (st.in_task_section = true →
      write_task st description wpNames =
        ({ st with out := st.out ++
            String.intercalate "," (escape description :: wpNames.map escape) ++ "\r\n" },
         Option.none)) := by
  constructor <;> intro hst
  · simp [write_task, hst, h, write_line, write_fields, String.append_assoc]
  · simp [write_task, hst, h, write_line, write_fields, String.append_assoc]

/-- The writer state right after a first, successful, empty task write;
it is inside the task section. -/
def stTask : WriterState := (write_task writerInit "" []).1

/-- Witness for C4: the divider behaviour at the initial state and at a
state already inside the task section. -/
theorem first_task_divider_witness :
    write_task writerInit "T" [] =
      ({ out := writerInit.out ++ "\r\n" ++ DIVIDER ++ "\r\n" ++
          String.intercalate "," (escape "T" :: ([] : List String).map escape) ++ "\r\n",
         wps := writerInit.wps, in_task_section := true }, Option.none) ∧
    write_task stTask "U" [] =
      ({ stTask with out := stTask.out ++
          String.intercalate "," (escape "U" :: ([] : List String).map escape) ++ "\r\n" },
       Option.none) :=
  ⟨(first_task_divider writerInit "T" [] rfl).1 rfl,
   (first_task_divider stTask "U" [] rfl).2 rfl⟩

/-- C7: write_waypoint fails with an invalid-state RuntimeError whenever
the writer is in the task section, regardless of its other arguments, and
write_task_options fails with an invalid-state RuntimeError whenever the
writer is still in the waypoint section; in both cases the error is
immediate and the state (hence the sink) is unchanged. -/
theorem invalid_state_errors (st : WriterState) :
    (st.in_task_section = true → ∀ name shortname country latitude longitude elevation
        style runway_direction runway_length frequency description,
      write_waypoint st name shortname country latitude longitude elevation style
          runway_direction runway_length frequency description =
        (st, some (.runtimeError "Waypoints must be written before any tasks"))) ∧
    (st.in_task_section = false → ∀ kw,
      write_task_options st kw =
        (st, some (.runtimeError "Task options have to be written in task section"))) := by
  constructor <;> intro hst
  · intro n sn c la lo e sty rd rl f d
    simp [write_waypoint, hst]
  · intro kw
    simp [write_task_options, hst]

/-- Witness for C7: the two invalid-state failures at concrete states. -/
theorem invalid_state_errors_witness :
    write_waypoint stTask "A" "" "" 0 0 (.str "") (.int 1) (.str "") (.str "") "" "" =
      (stTask, some (.runtimeError "Waypoints must be written before any tasks")) ∧
    write_task_options writerInit [] =
      (writerInit, some (.runtimeError "Task options have to be written in task section")) :=
  ⟨(invalid_state_errors stTask).1 rfl "A" "" "" 0 0 (.str "") (.int 1) (.str "") (.str "") "" "",
   (invalid_state_errors writerInit).2 rfl []⟩

def optionsTable : List (String × (PyVal → String)) :=
  [("start_time", fun v => "NoStart=" ++ format_time v),
   ("task_time", fun v => "TaskTime=" ++ format_timedelta v),
   ("waypoint_distance", fun v => "WpDis=" ++ pyStr v),
   ("distance_tolerance", fun v => "NearDis=" ++ format_distance v),
   ("altitude_tolerance", fun v => "NearAlt=" ++ format_distance v),
   ("min_distance", fun v => "MinDis=" ++ pyStr v),
   ("random_order", fun v => "RandomOrder=" ++ pyStr v),
   ("max_points", fun v => "MaxPts=" ++ pyIntStr v),
   ("before_points", fun v => "BeforePts=" ++ pyIntStr v),
   ("after_points", fun v => "AfterPts=" ++ pyIntStr v),
   ("bonus", fun v => "Bonus=" ++ pyIntStr v)]

def optionFields (kw : List (String × PyVal)) : List String :=
  optionsTable.filterMap (fun e => (kwLookup kw e.1).map e.2)

lemma kwLookup_cons_ne (kw : List (String × PyVal)) (k key : String) (v : PyVal)
    (h : ¬ k = key) : kwLookup ((k, v) :: kw) key = kwLookup kw key := by
  unfold kwLookup
  rw [List.find?_cons_of_neg]
  simp [h]

lemma filterMap_optField (kw : List (String × PyVal)) (k : String) (f : PyVal → String)
    (rest : List (String × (PyVal → String))) :
    List.filterMap (fun e => (kwLookup kw e.1).map e.2) ((k, f) :: rest) =
      optField kw k f ++ List.filterMap (fun e => (kwLookup kw e.1).map e.2) rest := by
  cases h : kwLookup kw k <;> simp [optField, List.filterMap_cons, h]

/-- C8: inside the task section, write_task_options writes exactly one
comma-joined CRLF-terminated line whose first field is the literal
Options; exactly the supplied keys produce one field each, in the fixed
table order start_time (NoStart=, time format), task_time (TaskTime=,
duration format), waypoint_distance (WpDis=, boolean literal),
distance_tolerance (NearDis=, distance format), altitude_tolerance
(NearAlt=, distance format), min_distance (MinDis=), random_order
(RandomOrder=), max_points (MaxPts=), before_points (BeforePts=),
after_points (AfterPts=), bonus (Bonus=); absent keys produce no field
and unrecognized keys are ignored. -/
theorem write_task_options_spec (st : WriterState) (kw : List (String × PyVal)) :
    (st.in_task_section = true →
      write_task_options st kw =
        ({ st with out := st.out ++
            String.intercalate "," ("Options" :: optionFields kw) ++ "\r\n" },
         Option.none)) ∧
    (∀ k v, ¬ k ∈ optionsTable.map Prod.fst →
      write_task_options st ((k, v) :: kw) = write_task_options st kw) := by
  constructor
  · intro hst
    simp only [optionFields, optionsTable, filterMap_optField, List.filterMap_nil,
      List.append_nil]
    simp [write_task_options, hst, write_fields, write_line, List.append_assoc,
      String.append_assoc]
  · intro k v hk
    simp only [optionsTable, List.map_cons, List.map_nil, List.mem_cons,
      List.mem_singleton, List.not_mem_nil] at hk
    push_neg at hk
    obtain ⟨h1, h2, h3, h4, h5, h6, h7, h8, h9, h10, h11, -⟩ := hk
    simp only [write_task_options, optField,
      kwLookup_cons_ne kw k "start_time" v h1,
      kwLookup_cons_ne kw k "task_time" v h2,
      kwLookup_cons_ne kw k "waypoint_distance" v h3,
      kwLookup_cons_ne kw k "distance_tolerance" v h4,
      kwLookup_cons_ne kw k "altitude_tolerance" v h5,
      kwLookup_cons_ne kw k "min_distance" v h6,
      kwLookup_cons_ne kw k "random_order" v h7,
      kwLookup_cons_ne kw k "max_points" v h8,
      kwLookup_cons_ne kw k "before_points" v h9,
      kwLookup_cons_ne kw k "after_points" v h10,
      kwLookup_cons_ne kw k "bonus" v h11]

/-- The options example of the write_task_options docstring. -/
def kwSample : List (String × PyVal) :=
  [("start_time", .time 12 34 56), ("task_time", .timedelta 6312),
   ("waypoint_distance", .bool false),
   ("distance_tolerance", .tup (.float (7 / 10)) "km"),
   ("altitude_tolerance", .float 300)]

/-- Witness for C8: the options line in the task section for the
docstring example, and the irrelevance of an unrecognized key. -/
theorem write_task_options_spec_witness :
    write_task_options stTask kwSample =
      ({ stTask with out := stTask.out ++
          String.intercalate "," ("Options" :: optionFields kwSample) ++ "\r\n" },
       Option.none) ∧
    write_task_options stTask (("unknown_key", PyVal.int 0) :: kwSample) =
      write_task_options stTask kwSample :=
  ⟨(write_task_options_spec stTask kwSample).1 rfl,
   (write_task_options_spec stTask kwSample).2 "unknown_key" (.int 0) (by decide)⟩

lemma write_line_wps (st : WriterState) (line : String) :
    (write_line st line).wps = st.wps := rfl

lemma write_line_its (st : WriterState) (line : String) :
    (write_line st line).in_task_section = st.in_task_section := rfl

/-- Counterexample for C1: on a fresh writer, a write_task call whose
waypoint list contains the undeclared name X fails with the referential
error, yet the failed call has written the blank line and the divider to
the sink and has switched the phase to the task section — refuting that a
failed write_task writes no lines and leaves the phase unchanged. -/
theorem write_task_first_call_mutates :
    (write_task writerInit "T" ["X"]).2 =
      some (.valueError "Waypoint \"X\" was not found") ∧
    writerInit.in_task_section = false ∧
    (write_task writerInit "T" ["X"]).1.in_task_section = true ∧
    (write_task writerInit "T" ["X"]).1.out =
      writerInit.out ++ "\r\n" ++ DIVIDER ++ "\r\n" := by
  refine ⟨?_, rfl, rfl, ?_⟩ <;> decide

/-- C1 amended: a write_task call whose waypoint list contains an
undeclared name fails with the referential not-found error naming the
first such name, no task line is written, and declaredWaypoints is
unchanged; if the writer was already in the task section the whole state
is unchanged, but if the failing call is the first write_task the blank
line and the divider have already been written and the phase has already
switched to the task section. -/
theorem write_task_referential_error (st : WriterState) (description : String)
    (wpNames : List String) (w : String)
    (h : firstMissing st.wps wpNames = some w) :
    (write_task st description wpNames).2 =
      some (.valueError ("Waypoint \"" ++ w ++ "\" was not found")) ∧
    (write_task st description wpNames).1.wps = st.wps ∧
    (st.in_task_section = true → (write_task st description wpNames).1 = st) ∧
    (st.in_task_section = false →
      (write_task st description wpNames).1.out = st.out ++ "\r\n" ++ DIVIDER ++ "\r\n" ∧
      (write_task st description wpNames).1.in_task_section = true) := by
  by_cases hst : st.in_task_section
  · refine ⟨?_, ?_, fun _ => ?_, fun hfalse => absurd hst (by simp [hfalse])⟩ <;>
      simp [write_task, hst, h]
  · have hW : (write_task st description wpNames).1 =
        { write_line (write_line st) DIVIDER with in_task_section := true } := by
      simp [write_task, hst, h, write_line]
    refine ⟨?_, ?_, fun htrue => absurd htrue (by simp [hst]), fun _ => ⟨?_, ?_⟩⟩
    · simp [write_task, hst, h, write_line_wps]
    · rw [hW]
      rfl
    · rw [hW]
      simp [write_line, String.append_assoc]
    · rw [hW]

/-- Witness for C1 (amended): the referential failure on a fresh writer
with the undeclared name X. -/
theorem write_task_referential_error_witness :
    (write_task writerInit "T" ["X"]).2 =
      some (.valueError ("Waypoint \"" ++ "X" ++ "\" was not found")) ∧
    (write_task writerInit "T" ["X"]).1.wps = writerInit.wps :=
  ⟨(write_task_referential_error writerInit "T" ["X"] "X" (by decide)).1,
   (write_task_referential_error writerInit "T" ["X"] "X" (by decide)).2.1⟩

lemma write_waypoint_state (st : WriterState) (n sn c : String) (la lo : ℚ)
    (e sty rd rl : PyVal) (f d : String) :
    ((write_waypoint st n sn c la lo e sty rd rl f d).1.wps = st.wps ∨
     (write_waypoint st n sn c la lo e sty rd rl f d).1.wps = st.wps.insert n) ∧
    (write_waypoint st n sn c la lo e sty rd rl f d).1.in_task_section =
      st.in_task_section := by
  unfold write_waypoint
  repeat' split
  all_goals simp [write_fields, write_line]

lemma write_task_wps (st : WriterState) (d : String) (w : List String) :
    (write_task st d w).1.wps = st.wps := by
  by_cases hst : st.in_task_section = true <;>
    simp only [write_task, hst, Bool.not_true, Bool.not_false, not_false_iff,
      not_true, if_true, if_false, ite_true, ite_false] <;>
    cases hfm : firstMissing st.wps w <;>
    simp [hfm, write_fields, write_line]

lemma write_task_its (st : WriterState) (d : String) (w : List String) :
    (write_task st d w).1.in_task_section = true := by
  by_cases hst : st.in_task_section = true <;>
    simp only [write_task, hst, Bool.not_true, Bool.not_false, not_false_iff,
      not_true, if_true, if_false, ite_true, ite_false] <;>
    cases hfm : firstMissing st.wps w <;>
    simp [hfm, write_fields, write_line, hst]

lemma write_task_options_state (st : WriterState) (kw : List (String × PyVal)) :
    (write_task_options st kw).1.wps = st.wps ∧
    (write_task_options st kw).1.in_task_section = st.in_task_section := by
  unfold write_task_options
  repeat' split
  all_goals simp [write_fields, write_line]

def isWaypointOp : Op → Bool
  | .waypoint .. => true
  | _ => false

def isTaskOp : Op → Bool
  | .task .. => true
  | _ => false

lemma step_wps_mono (st : WriterState) (op : Op) : st.wps ⊆ (step st op).1.wps := by
  cases op with
  | waypoint n sn c la lo e sty rd rl f d =>
      rcases (write_waypoint_state st n sn c la lo e sty rd rl f d).1 with h | h <;>
        rw [step, h]
      · exact List.Subset.refl _
      · exact List.subset_insert n st.wps
  | task d w =>
      rw [step, write_task_wps]
      exact List.Subset.refl _
  | options kw =>
      rw [step, (write_task_options_state st kw).1]
      exact List.Subset.refl _

lemma step_its_mono (st : WriterState) (op : Op)
    (h : st.in_task_section = true) : (step st op).1.in_task_section = true := by
  cases op with
  | waypoint n sn c la lo e sty rd rl f d =>
      rw [step, (write_waypoint_state st n sn c la lo e sty rd rl f d).2, h]
  | task d w =>
      rw [step, write_task_its]
  | options kw =>
      rw [step, (write_task_options_state st kw).2, h]

/-- C9: across every sequence of operations on one writer, including
calls that fail, declaredWaypoints only grows (the start state wps list is
contained in the final one, so it never shrinks and is never cleared),
and the phase flag is monotone: once in the task section the writer stays
there, so the phase transitions at most once, from the waypoint section
to the task section, and never back. -/
theorem writer_state_monotone (st : WriterState) (ops : List Op) :
    st.wps ⊆ (run st ops).wps ∧
    (st.in_task_section = true → (run st ops).in_task_section = true) := by
  induction ops generalizing st with
  | nil => exact ⟨List.Subset.refl _, fun h => h⟩
  | cons op rest ih =>
      refine ⟨?_, fun h => ?_⟩
      · exact (step_wps_mono st op).trans (ih (step st op).1).1
      · exact (ih (step st op).1).2 (step_its_mono st op h)

/-- C10: write_task never modifies declaredWaypoints (not even on a
successful task write), write_task_options modifies neither
declaredWaypoints nor the phase, the only operation that can change
declaredWaypoints is write_waypoint, and the only operation that can
change the phase is write_task. -/
theorem frame_effects (st : WriterState) :
    (∀ description waypoints,
      (write_task st description waypoints).1.wps = st.wps) ∧
    (∀ kw, (write_task_options st kw).1.wps = st.wps ∧
      (write_task_options st kw).1.in_task_section = st.in_task_section) ∧
    (∀ op, ¬ (step st op).1.wps = st.wps → isWaypointOp op = true) ∧
    (∀ op, ¬ (step st op).1.in_task_section = st.in_task_section →
      isTaskOp op = true) := by
  refine ⟨fun d w => write_task_wps st d w, fun kw => write_task_options_state st kw,
    fun op h => ?_, fun op h => ?_⟩
  · cases op with
    | waypoint n sn c la lo e sty rd rl f d => rfl
    | task d w => exact absurd (write_task_wps st d w) h
    | options kw => exact absurd (write_task_options_state st kw).1 h
  · cases op with
    | waypoint n sn c la lo e sty rd rl f d =>
        exact absurd (write_waypoint_state st n sn c la lo e sty rd rl f d).2 h
    | task d w => rfl
    | options kw => exact absurd (write_task_options_state st kw).2 h

lemma fmt63_zero : fmt63 0 = "00.000" := by
  have h : rnd ((0 : ℚ) * 1000) = 0 := rnd_eq _ 0 (by norm_num) (by norm_num)
  have hfm : fmt63 (0 : ℚ) = fmtNat 2 ((rnd ((0 : ℚ) * 1000)).toNat / 1000) ++ "." ++
      fmtNat 3 ((rnd ((0 : ℚ) * 1000)).toNat % 1000) := rfl
  rw [hfm, h]
  decide

lemma lat_zero : format_latitude 0 = Except.ok "0000.000N" := by
  rw [format_latitude, format_latitude_ok 0 (by norm_num) (by norm_num)]
  rw [if_neg (by norm_num : ¬ (0 : ℚ) < 0)]
  simp only [abs_zero, Int.floor_zero, Int.toNat_zero, Nat.cast_zero, sub_zero, zero_mul,
    fmt63_zero]
  exact congrArg Except.ok (by decide)

lemma lon_zero : format_longitude 0 = Except.ok "00000.000E" := by
  rw [format_longitude, format_longitude_ok 0 (by norm_num) (by norm_num)]
  rw [if_neg (by norm_num : ¬ (0 : ℚ) < 0)]
  simp only [abs_zero, Int.floor_zero, Int.toNat_zero, Nat.cast_zero, sub_zero, zero_mul,
    fmt63_zero]
  exact congrArg Except.ok (by decide)

def opW : Op := Op.waypoint "A" "" "" 0 0 (.str "") (.int 1) (.str "") (.str "") "" ""

lemma step_opW_wps : (step writerInit opW).1.wps = ["A"] := by
  simp [step, opW, write_waypoint, lat_zero, lon_zero, writerInit, write_fields, write_line]

/-- Witness for C9: monotonicity evaluated on a singleton operation list
from both the initial state and a task-section state. -/
theorem writer_state_monotone_witness :
    writerInit.wps ⊆ (run writerInit [Op.task "" []]).wps ∧
    (run stTask [Op.options []]).in_task_section = true :=
  ⟨(writer_state_monotone writerInit [Op.task "" []]).1,
   (writer_state_monotone stTask [Op.options []]).2 rfl⟩

/-- Witness for C10: the frame conditions applied at concrete states and
operations (a concrete waypoint write does change declaredWaypoints, a
concrete task write does change the phase). -/
theorem frame_effects_witness :
    (write_task stTask "T" []).1.wps = stTask.wps ∧
    isWaypointOp opW = true ∧
    isTaskOp (Op.task "T" ["X"]) = true := by
  refine ⟨(frame_effects stTask).1 "T" [], ?_, ?_⟩
  · apply (frame_effects writerInit).2.2.1 opW
    rw [step_opW_wps]
    decide
  · apply (frame_effects writerInit).2.2.2 (Op.task "T" ["X"])
    rw [show (step writerInit (Op.task "T" ["X"])).1.in_task_section = true from
      write_task_its writerInit "T" ["X"]]
    decide
